import Mathlib

/-!
Verification of the wp-calypso client excerpt: purchase selectors and the
section-loading middleware (`client/sections-middleware.js`).

The purchase selectors themselves are not part of the excerpt; only their
test suite is.  They are therefore modelled from the specification
(doc comments starting `Modelled from the spec:`), kept consistent with the
observable behaviour recorded in the test file.  The section-loading
middleware is embedded directly from `client/sections-middleware.js`.

JavaScript values are embedded as follows: a number that may be `NaN` is
`Option Int` (`none` = `NaN`); a field that may be `undefined` is an
`Option`; a raw server id that may arrive as a number or a string is the
sum type `RawId`.
-/

namespace Purchases

/-- A raw server-side identifier: the API may deliver ids either as JSON
numbers or as strings (e.g. `blog_id: '1234'`). -/
inductive RawId where
  | num (n : Int)
  | str (s : String)
deriving DecidableEq, Repr

/-- JavaScript `Number(x)` coercion on a raw id: numbers pass through,
strings are parsed; an unparsable string gives `NaN` (here `none`). -/
def toNumber : RawId → Option Int
  | .num n => some n
  | .str s => s.toInt?

/-- JavaScript `Number(x)` on a possibly-`undefined` raw id:
`Number(undefined)` is `NaN`. -/
def toNumberOpt : Option RawId → Option Int
  | none => none
  | some v => toNumber v

/-- A raw purchase record as delivered by the server, with every field the
test fixtures exercise; all fields other than `ID` are optional. -/
structure RawPurchase where
  ID : RawId
  product_name : Option String := none
  product_slug : Option String := none
  product_id : Option RawId := none
  blog_id : Option RawId := none
  user_id : Option RawId := none
  meta : Option String := none
  included_domain : Option String := none
  is_domain_registration : Option String := none
  active : Option Bool := none
  amount : Option Int := none
  attached_to_purchase_id : Option RawId := none
  can_explicit_renew : Option Bool := none
  can_disable_auto_renew : Option Bool := none
  currency_code : Option String := none
  currency_symbol : Option String := none
  domain : Option String := none
  expiry_date : Option String := none
  has_private_registration : Option Bool := none
  is_cancelable : Option Bool := none
  is_refundable : Option Bool := none
  is_renewable : Option Bool := none
  is_renewal : Option Bool := none
  pending_transfer : Option Bool := none
  refund_period_in_days : Option Int := none
  refund_amount : Option Int := none
  renew_date : Option String := none
  blogname : Option String := none
  subscribed_date : Option String := none
  subscription_status : Option String := none
  tag_line : Option String := none
deriving DecidableEq, Repr

/-- The normalized, UI-facing purchase view model produced by the
assembler.  Numeric fields are `Option Int` with `none` standing for
`NaN`; optional fields are `Option` with `none` standing for
`undefined`; flags are plain booleans. -/
structure Purchase where
  id : Option Int
  productName : Option String
  productSlug : Option String
  productId : Option Int
  siteId : Option Int
  siteName : Option String
  userId : Option Int
  active : Bool
  amount : Option Int
  attachedToPurchaseId : Option Int
  canExplicitRenew : Bool
  canDisableAutoRenew : Bool
  currencyCode : Option String
  currencySymbol : Option String
  domain : Option String
  expiryDate : Option String
  hasPrivacyProtection : Bool
  includedDomain : Option String
  isCancelable : Bool
  isDomainRegistration : Bool
  isRefundable : Bool
  isRenewable : Bool
  isRenewal : Bool
  meta : Option String
  pendingTransfer : Bool
  refundPeriodInDays : Option Int
  refundAmount : Option Int
  renewDate : Option String
  subscribedDate : Option String
  subscriptionStatus : Option String
  tagLine : Option String
deriving DecidableEq, Repr

/-- Modelled from the spec: the purchase record assembler, a pure
transformation of one raw server record into the normalized view model.
Missing numeric fields become `NaN` (`none`), missing optional fields
stay `undefined` (`none`), and boolean flags default to `false`;
`is_domain_registration` arrives as the string `'true'`/`'false'`. -/
def createPurchaseObject (raw : RawPurchase) : Purchase :=
  { id := toNumber raw.ID
    productName := raw.product_name
    productSlug := raw.product_slug
    productId := toNumberOpt raw.product_id
    siteId := toNumberOpt raw.blog_id
    siteName := raw.blogname
    userId := toNumberOpt raw.user_id
    active := raw.active.getD false
    amount := raw.amount
    attachedToPurchaseId := toNumberOpt raw.attached_to_purchase_id
    canExplicitRenew := raw.can_explicit_renew.getD false
    canDisableAutoRenew := raw.can_disable_auto_renew.getD false
    currencyCode := raw.currency_code
    currencySymbol := raw.currency_symbol
    domain := raw.domain
    expiryDate := raw.expiry_date
    hasPrivacyProtection := raw.has_private_registration.getD false
    includedDomain := raw.included_domain
    isCancelable := raw.is_cancelable.getD false
    isDomainRegistration := raw.is_domain_registration = some "true"
    isRefundable := raw.is_refundable.getD false
    isRenewable := raw.is_renewable.getD false
    isRenewal := raw.is_renewal.getD false
    meta := raw.meta
    pendingTransfer := raw.pending_transfer.getD false
    refundPeriodInDays := raw.refund_period_in_days
    refundAmount := raw.refund_amount
    renewDate := raw.renew_date
    subscribedDate := raw.subscribed_date
    subscriptionStatus := raw.subscription_status
    tagLine := raw.tag_line }

/-- Modelled from the spec: `createPurchasesArray` maps every raw record
through the assembler, in order, building a new array. -/
def createPurchasesArray (data : List RawPurchase) : List Purchase :=
  data.map createPurchaseObject

/-- The `state.purchases` slice of the global store. -/
structure PurchasesState where
  data : List RawPurchase
  isFetchingSitePurchases : Bool
  isFetchingUserPurchases : Bool
  hasLoadedSitePurchasesFromServer : Bool
  hasLoadedUserPurchasesFromServer : Bool
deriving Repr

/-- The global state shape, restricted to the slice the selectors read. -/
structure GlobalState where
  purchases : PurchasesState
deriving Repr

/-- Modelled from the spec: `getPurchases` maps the raw records through
the assembler and returns a new sequence on every call reflecting the
current state (no caching or memoization). -/
def getPurchases (state : GlobalState) : List Purchase :=
  createPurchasesArray state.purchases.data

/-- Modelled from the spec: `getByPurchaseId` finds the first purchase
whose numeric id matches. -/
def getByPurchaseId (state : GlobalState) (id : Int) : Option Purchase :=
  (getPurchases state).find? (fun p => p.id = some id)

/-- Modelled from the spec: `getSitePurchases` filters the view models by
site identifier equality after numeric normalization of the raw id. -/
def getSitePurchases (state : GlobalState) (siteId : Int) : List Purchase :=
  (getPurchases state).filter (fun p => p.siteId = some siteId)

/-- Modelled from the spec: `getUserPurchases` requires the user-scoped
"loaded from server" flag; when not loaded it reports the false answer
(`none`, the embedding of JS `false`), otherwise the purchases owned by
the given user. -/
def getUserPurchases (state : GlobalState) (userId : Int) :
    Option (List Purchase) :=
  if state.purchases.hasLoadedUserPurchasesFromServer then
    some ((getPurchases state).filter (fun p => p.userId = some userId))
  else
    none

/-- Modelled from the spec: `isUserPaid` requires the user-scoped loaded
flag and reports whether the user owns at least one purchase; when the
data is not loaded it answers `false`. -/
def isUserPaid (state : GlobalState) (userId : Int) : Bool :=
  match getUserPurchases state userId with
  | none => false
  | some purchases => decide (0 < purchases.length)

/-- Modelled from the spec: `hasCancelableUserPurchases` requires the
user-scoped loaded flag and reports whether the user owns a cancelable
purchase; premium-theme purchases are not cancelable, and when the data
is not loaded it answers `false`. -/
def hasCancelableUserPurchases (state : GlobalState) (userId : Int) : Bool :=
  match getUserPurchases state userId with
  | none => false
  | some purchases =>
    decide
      (0 < (purchases.filter
        (fun p => p.productSlug ≠ some "premium_theme")).length)

/-- Modelled from the spec: `getUserPurchasedPremiumThemes` requires the
user-scoped loaded flag; when not loaded it reports the false answer
(`none`), otherwise the user's purchases whose product slug equals the
premium-theme marker. -/
def getUserPurchasedPremiumThemes (state : GlobalState) (userId : Int) :
    Option (List Purchase) :=
  (getUserPurchases state userId).map
    (fun purchases =>
      purchases.filter (fun p => p.productSlug = some "premium_theme"))

/-- Modelled from the spec: the fetching-status getters pass through the
raw boolean flags unchanged. -/
def isFetchingSitePurchases (state : GlobalState) : Bool :=
  state.purchases.isFetchingSitePurchases

/-- Modelled from the spec: pass-through of the user-scoped in-flight
flag. -/
def isFetchingUserPurchases (state : GlobalState) : Bool :=
  state.purchases.isFetchingUserPurchases

end Purchases

namespace Middleware

/-!
Embedding of `client/sections-middleware.js`.  The page handler installed
by `createPageDefinition` is modelled as a function from its inputs (the
configured environment id, the `LoadingError.isRetry()` flag, whether
`NODE_ENV` is `'development'`, the `_loadedSections` registry, the section
definition, and the eventual outcome of `preload`) to the sequence of
observable effects it performs and the updated registry.  Effects record
every store dispatch, router continuation, module initialization, timer
operation and `LoadingError` call, in program order.
-/

/-- The shared router handle (`controller.clientRouter`) passed to every
module's initialization entry point. -/
inductive Router where
  | client
deriving DecidableEq, Repr

/-- A static section definition: name, module identifier, route paths and
the optional allowed environment-id list. -/
structure SectionDefinition where
  name : String
  module : String
  paths : List String
  envId : Option (List String) := none
deriving DecidableEq, Repr

/-- A store action dispatched by the middleware. -/
inductive Action where
  | sectionSet (isLoading : Bool)
  | activateNextLayoutFocus
  | bumpStat (stat : String) (value : String)
deriving DecidableEq, Repr

/-- One observable effect of the page handler, in program order. -/
inductive Effect where
  | dispatch (a : Action)
  | setSection (module : String)
  | next
  | setLoadTimeout
  | startPreload (name : String)
  | initModule (m : String) (router : Router)
  | markLoaded (m : String)
  | retry (name : String)
  | showError (name : String)
  | clearLoadTimeout
deriving DecidableEq, Repr

/-- The outcome of `preload( sectionDefinition.name )`: it resolves with
the list of required modules or rejects. -/
inductive LoadResult where
  | success (requiredModules : List String)
  | failure
deriving DecidableEq, Repr

/-- `activateSection`: select the section, dispatch `SECTION_SET` with
`isLoading: false`, dispatch `activateNextLayoutFocus()`, call `next()`. -/
def activateSection (sd : SectionDefinition) : List Effect :=
  [ .setSection sd.module,
    .dispatch (.sectionSet false),
    .dispatch .activateNextLayoutFocus,
    .next ]

/-- The effects performed before the load settles: dispatch
`SECTION_SET` with `isLoading: true`, install the 400ms analytics timer,
start `preload`. -/
def startEffects (sd : SectionDefinition) : List Effect :=
  [ .dispatch (.sectionSet true),
    .setLoadTimeout,
    .startPreload sd.name ]

/-- The effects performed when the `preload` promise settles, together
with the updated `_loadedSections` registry (the registry is read again
after resolution, as in the source).  The trailing `clearLoadTimeout` is
the final `.then` of the chain and runs for success and failure alike. -/
def settleEffects (isRetry isDev : Bool) (loaded : List String)
    (sd : SectionDefinition) : LoadResult → List Effect × List String
  | .success mods =>
    if sd.module ∈ loaded then
      (activateSection sd ++ [.clearLoadTimeout], loaded)
    else
      (mods.map (fun m => .initModule m .client)
        ++ [.markLoaded sd.module]
        ++ activateSection sd
        ++ [.clearLoadTimeout],
       sd.module :: loaded)
  | .failure =>
    if !isRetry && !isDev then
      ([.retry sd.name, .clearLoadTimeout], loaded)
    else
      ([.dispatch (.sectionSet false), .showError sd.name,
        .clearLoadTimeout], loaded)

/-- `envId && envId.indexOf( config( 'env_id' ) ) === -1`: the section is
allowed unless it declares an environment list not containing the
configured environment id. -/
def envAllows (envIdConfig : String) (sd : SectionDefinition) : Bool :=
  match sd.envId with
  | none => true
  | some allowed => decide (envIdConfig ∈ allowed)

/-- The page handler installed by `createPageDefinition`, given the
eventual outcome of the section load.  Returns the effect trace and the
updated `_loadedSections` registry. -/
def pageHandler (envIdConfig : String) (isRetry isDev : Bool)
    (loaded : List String) (sd : SectionDefinition) (result : LoadResult) :
    List Effect × List String :=
  if !(envAllows envIdConfig sd) then
    ([.next], loaded)
  else if sd.module ∈ loaded then
    (activateSection sd, loaded)
  else
    let settled := settleEffects isRetry isDev loaded sd result
    (startEffects sd ++ settled.1, settled.2)

/-- Sequential processing of a list of route matches, each with its load
outcome, threading the `_loadedSections` registry through and
concatenating the effect traces. -/
def runMatches (envIdConfig : String) (isRetry isDev : Bool)
    (loaded : List String) :
    List (SectionDefinition × LoadResult) → List Effect × List String
  | [] => ([], loaded)
  | (sd, result) :: rest =>
    let h := pageHandler envIdConfig isRetry isDev loaded sd result
    let k := runMatches envIdConfig isRetry isDev h.2 rest
    (h.1 ++ k.1, k.2)

/-- The state of the application-wide `isLoading` flag after folding the
dispatched actions of an effect trace over an initial value; only
`SECTION_SET` actions change it. -/
def loadingAfter (init : Bool) (effects : List Effect) : Bool :=
  effects.foldl
    (fun flag e =>
      match e with
      | .dispatch (.sectionSet b) => b
      | _ => flag)
    init

/-- A one-shot timer cleared at a given instant fires exactly when its
deadline has already passed: the load settling at time `d` clears the
400ms analytics timer, so it fires only if `400 < d`. -/
def timerFires (delay clearedAt : Nat) : Bool :=
  decide (delay < clearedAt)

/-- The timed trace of one load attempt for a not-yet-loaded section:
the start effects run at time 0, the analytics timer (if not cleared
first) fires at its 400ms deadline, and the settlement effects run when
the load settles at time `d`. -/
def attemptTimeline (isRetry isDev : Bool) (loaded : List String)
    (sd : SectionDefinition) (result : LoadResult) (d : Nat) :
    List (Nat × Effect) :=
  (startEffects sd).map (fun e => (0, e))
    ++ (if timerFires 400 d then
          [(400, .dispatch (.bumpStat "calypso_chunk_waiting" sd.name))]
        else [])
    ++ (settleEffects isRetry isDev loaded sd result).1.map (fun e => (d, e))

/-- Whether an effect is the slow-chunk analytics dispatch. -/
def isBumpStat : Effect → Bool
  | .dispatch (.bumpStat _ _) => true
  | _ => false

/-- The failure-driven retry process: `LoadingError.retry` reloads the
section, and on the retried attempt `LoadingError.isRetry()` reports
`true`.  Each element of the outcome list is the result of one attempt;
a retry consumes the next outcome. -/
def runAttempts (envIdConfig : String) (isDev : Bool)
    (loaded : List String) (sd : SectionDefinition) :
    Bool → List LoadResult → List Effect
  | _, [] => []
  | isRetry, result :: rest =>
    let h := pageHandler envIdConfig isRetry isDev loaded sd result
    match result with
    | .success _ => h.1
    | .failure =>
      if envAllows envIdConfig sd = true ∧ sd.module ∉ loaded
          ∧ isRetry = false ∧ isDev = false then
        h.1 ++ runAttempts envIdConfig isDev loaded sd true rest
      else
        h.1

end Middleware

open Purchases Middleware

/-- A state with nonempty purchase data whose user-scoped loaded flag is
false, for exercising the readiness gate. -/
def c1State : GlobalState :=
  { purchases :=
      { data :=
          [ { ID := .num 1, product_name := some "domain registration",
              blog_id := some (.num 1337), user_id := some (.num 123) },
            { ID := .num 2, product_name := some "premium plan",
              blog_id := some (.num 1337), user_id := some (.num 123) } ]
        isFetchingSitePurchases := false
        isFetchingUserPurchases := false
        hasLoadedSitePurchasesFromServer := false
        hasLoadedUserPurchasesFromServer := false } }

/-- C1: whenever the user-scoped "loaded from server" flag is false,
`hasCancelableUserPurchases` and `isUserPaid` answer `false` and
`getUserPurchasedPremiumThemes` answers its false result (`none`),
regardless of the contents of the purchases data. -/
theorem selector_readiness_gating (s : GlobalState) (userId : Int)
    (h : s.purchases.hasLoadedUserPurchasesFromServer = false) :
    hasCancelableUserPurchases s userId = false ∧
    isUserPaid s userId = false ∧
    getUserPurchasedPremiumThemes s userId = none := by
  simp [hasCancelableUserPurchases, isUserPaid, getUserPurchasedPremiumThemes,
    getUserPurchases, h]

/-- C1 witness: the gate fires on a concrete state carrying two purchase
records for user 123 but with the loaded flag still false. -/
theorem selector_readiness_gating_witness :
    c1State.purchases.hasLoadedUserPurchasesFromServer = false ∧
    (hasCancelableUserPurchases c1State 123 = false ∧
     isUserPaid c1State 123 = false ∧
     getUserPurchasedPremiumThemes c1State 123 = none) :=
  ⟨rfl, selector_readiness_gating c1State 123 rfl⟩

/-- A state holding exactly one raw record that has only `ID`,
`product_name` and `blog_id` populated. -/
def c5State : GlobalState :=
  { purchases :=
      { data :=
          [ { ID := .num 2, product_name := some "premium plan",
              blog_id := some (.num 1337) } ]
        isFetchingSitePurchases := false
        isFetchingUserPurchases := false
        hasLoadedSitePurchasesFromServer := false
        hasLoadedUserPurchasesFromServer := true } }

/-- C5: on a raw record missing every optional field, `getByPurchaseId`
still returns a fully-shaped view model: numeric fields are `NaN`
(`none`), optional fields are `undefined` (`none`), and boolean flags
are `false`. -/
theorem getByPurchaseId_sentinel_shape (i : Int) (pn : Option String)
    (bid : Option RawId) (s : GlobalState)
    (h : s.purchases.data =
      [{ ID := RawId.num i, product_name := pn, blog_id := bid }]) :
    getByPurchaseId s i = some
      { id := some i
        productName := pn
        productSlug := none
        productId := none
        siteId := toNumberOpt bid
        siteName := none
        userId := none
        active := false
        amount := none
        attachedToPurchaseId := none
        canExplicitRenew := false
        canDisableAutoRenew := false
        currencyCode := none
        currencySymbol := none
        domain := none
        expiryDate := none
        hasPrivacyProtection := false
        includedDomain := none
        isCancelable := false
        isDomainRegistration := false
        isRefundable := false
        isRenewable := false
        isRenewal := false
        meta := none
        pendingTransfer := false
        refundPeriodInDays := none
        refundAmount := none
        renewDate := none
        subscribedDate := none
        subscriptionStatus := none
        tagLine := none } := by
  simp [getByPurchaseId, getPurchases, createPurchasesArray, h,
    createPurchaseObject, toNumber, toNumberOpt, List.find?]

/-- C5 witness: the sentinel-filled view model at the concrete record
`{ ID: 2, product_name: 'premium plan', blog_id: 1337 }`. -/
theorem getByPurchaseId_sentinel_shape_witness :
    c5State.purchases.data =
      [{ ID := RawId.num 2, product_name := some "premium plan",
         blog_id := some (.num 1337) }] ∧
    getByPurchaseId c5State 2 = some
      { id := some 2
        productName := some "premium plan"
        productSlug := none
        productId := none
        siteId := some 1337
        siteName := none
        userId := none
        active := false
        amount := none
        attachedToPurchaseId := none
        canExplicitRenew := false
        canDisableAutoRenew := false
        currencyCode := none
        currencySymbol := none
        domain := none
        expiryDate := none
        hasPrivacyProtection := false
        includedDomain := none
        isCancelable := false
        isDomainRegistration := false
        isRefundable := false
        isRenewable := false
        isRenewal := false
        meta := none
        pendingTransfer := false
        refundPeriodInDays := none
        refundAmount := none
        renewDate := none
        subscribedDate := none
        subscriptionStatus := none
        tagLine := none } :=
  ⟨rfl, getByPurchaseId_sentinel_shape 2 (some "premium plan")
    (some (.num 1337)) c5State rfl⟩

/-- C6: `getSitePurchases` returns exactly the view models of the raw
records whose normalized site id matches the query (same count), and
every returned view model's `siteId` equals the query value. -/
theorem getSitePurchases_exact (s : GlobalState) (siteId : Int) :
    (getSitePurchases s siteId).length
      = s.purchases.data.countP
          (fun raw => toNumberOpt raw.blog_id = some siteId) ∧
    ∀ p ∈ getSitePurchases s siteId, p.siteId = some siteId := by
  constructor
  · simp only [getSitePurchases, getPurchases, createPurchasesArray]
    rw [← List.countP_eq_length_filter, List.countP_map]
    rfl
  · intro p hp
    have := List.mem_filter.mp hp
    simpa using this.2

/-- The loading flag folds over concatenated traces piecewise. -/
theorem loadingAfter_append (b : Bool) (l1 l2 : List Effect) :
    loadingAfter b (l1 ++ l2) = loadingAfter (loadingAfter b l1) l2 :=
  List.foldl_append _ _ _ _

/-- Module initialization calls never touch the loading flag. -/
theorem loadingAfter_initModules (b : Bool) (mods : List String) :
    loadingAfter b (mods.map (fun m => Effect.initModule m .client)) = b := by
  induction mods with
  | nil => rfl
  | cons m ms ih => simpa [loadingAfter] using ih

/-- C4: activation performs, in order: select the section, dispatch
`SECTION_SET` with `isLoading: false`, advance layout focus, call the
next handler — immediately when the section is already loaded, and right
after the initialization steps on a fresh successful load; in both cases
the loading flag ends up cleared. -/
theorem activation_sequence (cfg : String) (isRetry isDev : Bool)
    (loaded : List String) (sd : SectionDefinition) (result : LoadResult)
    (mods : List String) (henv : envAllows cfg sd = true) :
    (sd.module ∈ loaded →
      pageHandler cfg isRetry isDev loaded sd result =
        ([ Effect.setSection sd.module,
           Effect.dispatch (Action.sectionSet false),
           Effect.dispatch Action.activateNextLayoutFocus,
           Effect.next ], loaded) ∧
      loadingAfter true (pageHandler cfg isRetry isDev loaded sd result).1
        = false) ∧
    (sd.module ∉ loaded →
      (pageHandler cfg isRetry isDev loaded sd (.success mods)).1 =
        startEffects sd
          ++ mods.map (fun m => Effect.initModule m .client)
          ++ [ Effect.markLoaded sd.module,
               Effect.setSection sd.module,
               Effect.dispatch (Action.sectionSet false),
               Effect.dispatch Action.activateNextLayoutFocus,
               Effect.next,
               Effect.clearLoadTimeout ] ∧
      loadingAfter true
        (pageHandler cfg isRetry isDev loaded sd (.success mods)).1
        = false) := by
  constructor
  · intro hm
    have h1 : pageHandler cfg isRetry isDev loaded sd result =
        ([ Effect.setSection sd.module,
           Effect.dispatch (Action.sectionSet false),
           Effect.dispatch Action.activateNextLayoutFocus,
           Effect.next ], loaded) := by
      simp [pageHandler, henv, hm, activateSection]
    exact ⟨h1, by rw [h1]; rfl⟩
  · intro hm
    have h1 : (pageHandler cfg isRetry isDev loaded sd (.success mods)).1 =
        startEffects sd
          ++ mods.map (fun m => Effect.initModule m .client)
          ++ [ Effect.markLoaded sd.module,
               Effect.setSection sd.module,
               Effect.dispatch (Action.sectionSet false),
               Effect.dispatch Action.activateNextLayoutFocus,
               Effect.next,
               Effect.clearLoadTimeout ] := by
      simp [pageHandler, henv, hm, settleEffects, startEffects,
        activateSection]
    refine ⟨h1, ?_⟩
    rw [h1, loadingAfter_append, loadingAfter_append,
      loadingAfter_initModules]
    rfl

/-- C8: a route match for a section whose declared environment list does
not contain the current environment id is passed straight to the next
handler: no load, no initialization, no activation, no dispatch, and an
unchanged registry. -/
theorem env_restriction_skips (cfg : String) (isRetry isDev : Bool)
    (loaded : List String) (sd : SectionDefinition) (result : LoadResult)
    (allowed : List String) (h1 : sd.envId = some allowed)
    (h2 : cfg ∉ allowed) :
    pageHandler cfg isRetry isDev loaded sd result =
      ([Effect.next], loaded) := by
  simp [pageHandler, envAllows, h1, h2]

/-- A section restricted to development-style environments, for
exercising the environment gate. -/
def c8Section : SectionDefinition :=
  { name := "devdocs", module := "devdocs", paths := ["/devdocs"],
    envId := some ["development", "wpcalypso"] }

/-- C8 witness: a production environment id is skipped by a section
allowing only `development` and `wpcalypso`. -/
theorem env_restriction_skips_witness :
    c8Section.envId = some ["development", "wpcalypso"] ∧
    "production" ∉ ["development", "wpcalypso"] ∧
    pageHandler "production" false false [] c8Section (.success []) =
      ([Effect.next], []) :=
  ⟨rfl, by decide,
    env_restriction_skips "production" false false [] c8Section
      (.success []) ["development", "wpcalypso"] rfl (by decide)⟩

/-- A section used to exercise the activation sequence. -/
def c4Section : SectionDefinition :=
  { name := "sites", module := "sites", paths := ["/sites"] }

/-- C4 witness: the activation sequence on a concrete fresh successful
load, following initialization, with the loading flag cleared at the
end. -/
theorem activation_sequence_witness :
    envAllows "production" c4Section = true ∧
    "sites" ∉ ([] : List String) ∧
    ((pageHandler "production" false false [] c4Section
        (.success ["sites/index"])).1 =
      startEffects c4Section
        ++ ["sites/index"].map (fun m => Effect.initModule m .client)
        ++ [ Effect.markLoaded "sites",
             Effect.setSection "sites",
             Effect.dispatch (Action.sectionSet false),
             Effect.dispatch Action.activateNextLayoutFocus,
             Effect.next,
             Effect.clearLoadTimeout ] ∧
      loadingAfter true
        (pageHandler "production" false false [] c4Section
          (.success ["sites/index"])).1 = false) := by
  refine ⟨rfl, by simp, ?_⟩
  exact (activation_sequence "production" false false [] c4Section
    (.success ["sites/index"]) ["sites/index"] rfl).2 (by simp)

/-- Branch shape: the handler skips a section whose environment check
fails. -/
theorem pageHandler_env_skip (cfg : String) (isRetry isDev : Bool)
    (loaded : List String) (sd : SectionDefinition) (r : LoadResult)
    (h : envAllows cfg sd = false) :
    pageHandler cfg isRetry isDev loaded sd r = ([Effect.next], loaded) := by
  simp [pageHandler, h]

/-- Branch shape: an already-loaded section activates immediately and
leaves the registry unchanged. -/
theorem pageHandler_loaded (cfg : String) (isRetry isDev : Bool)
    (loaded : List String) (sd : SectionDefinition) (r : LoadResult)
    (henv : envAllows cfg sd = true) (hm : sd.module ∈ loaded) :
    pageHandler cfg isRetry isDev loaded sd r = (activateSection sd, loaded) := by
  simp [pageHandler, henv, hm]

/-- Branch shape: a successful first load initializes the required
modules, marks the section loaded, activates, and clears the timer. -/
theorem pageHandler_success (cfg : String) (isRetry isDev : Bool)
    (loaded : List String) (sd : SectionDefinition) (mods : List String)
    (henv : envAllows cfg sd = true) (hm : sd.module ∉ loaded) :
    pageHandler cfg isRetry isDev loaded sd (.success mods) =
      (startEffects sd ++ mods.map (fun m => Effect.initModule m .client)
        ++ [ Effect.markLoaded sd.module,
             Effect.setSection sd.module,
             Effect.dispatch (Action.sectionSet false),
             Effect.dispatch Action.activateNextLayoutFocus,
             Effect.next,
             Effect.clearLoadTimeout ],
       sd.module :: loaded) := by
  simp [pageHandler, henv, hm, settleEffects, startEffects, activateSection]

/-- Branch shape: a failed first-attempt load outside development
triggers the retry and nothing else. -/
theorem pageHandler_failure_retry (cfg : String) (loaded : List String)
    (sd : SectionDefinition) (henv : envAllows cfg sd = true)
    (hnl : sd.module ∉ loaded) :
    pageHandler cfg false false loaded sd .failure =
      ([ Effect.dispatch (Action.sectionSet true),
         Effect.setLoadTimeout,
         Effect.startPreload sd.name,
         Effect.retry sd.name,
         Effect.clearLoadTimeout ], loaded) := by
  simp [pageHandler, henv, hnl, settleEffects, startEffects]

/-- Branch shape: a failed load that is already a retry, or in a
development environment, clears the loading flag and shows the error. -/
theorem pageHandler_failure_show (cfg : String) (isRetry isDev : Bool)
    (loaded : List String) (sd : SectionDefinition)
    (henv : envAllows cfg sd = true) (hnl : sd.module ∉ loaded)
    (h : isRetry = true ∨ isDev = true) :
    pageHandler cfg isRetry isDev loaded sd .failure =
      ([ Effect.dispatch (Action.sectionSet true),
         Effect.setLoadTimeout,
         Effect.startPreload sd.name,
         Effect.dispatch (Action.sectionSet false),
         Effect.showError sd.name,
         Effect.clearLoadTimeout ], loaded) := by
  have hb : (!isRetry && !isDev) = false := by
    rcases h with h | h <;> subst h <;> simp
  simp [pageHandler, henv, hnl, settleEffects, hb, startEffects]

/-- C10: in the retry branch of a failed load, the middleware dispatches
no `SECTION_SET` with `isLoading: false`: the flag set at load start is
still set after the whole trace, and in general the flag is only ever
cleared by a trace that also activates (calls `next`) or shows the
terminal loading error. -/
theorem retry_keeps_loading_flag (cfg : String) (isDev : Bool)
    (loaded : List String) (sd : SectionDefinition)
    (henv : envAllows cfg sd = true) (hnl : sd.module ∉ loaded)
    (hdev : isDev = false) :
    ((pageHandler cfg false isDev loaded sd .failure).1.count
        (Effect.dispatch (Action.sectionSet false)) = 0) ∧
    loadingAfter false (pageHandler cfg false isDev loaded sd .failure).1
      = true ∧
    Effect.dispatch (Action.sectionSet true)
        ∈ (pageHandler cfg false isDev loaded sd .failure).1 ∧
    (∀ (isRetry2 isDev2 : Bool) (loaded2 : List String) (r : LoadResult),
      Effect.dispatch (Action.sectionSet false)
          ∈ (pageHandler cfg isRetry2 isDev2 loaded2 sd r).1 →
      Effect.next ∈ (pageHandler cfg isRetry2 isDev2 loaded2 sd r).1 ∨
      Effect.showError sd.name
          ∈ (pageHandler cfg isRetry2 isDev2 loaded2 sd r).1) := by
  subst hdev
  have htr := pageHandler_failure_retry cfg loaded sd henv hnl
  refine ⟨?_, ?_, ?_, ?_⟩
  · rw [htr]
    simp [List.count_cons]
  · rw [htr]
    rfl
  · rw [htr]
    simp
  · intro isRetry2 isDev2 loaded2 r hmem
    by_cases hl : sd.module ∈ loaded2
    · rw [pageHandler_loaded cfg isRetry2 isDev2 loaded2 sd r henv hl]
      left
      simp [activateSection]
    · cases r with
      | success mods =>
        rw [pageHandler_success cfg isRetry2 isDev2 loaded2 sd mods henv hl]
        left
        simp [startEffects]
      | failure =>
        by_cases hfirst : isRetry2 = false ∧ isDev2 = false
        · obtain ⟨hr2, hd2⟩ := hfirst
          subst hr2
          subst hd2
          rw [pageHandler_failure_retry cfg loaded2 sd henv hl] at hmem
          simp at hmem
        · have h2 : isRetry2 = true ∨ isDev2 = true := by
            cases isRetry2 with
            | true => exact Or.inl rfl
            | false =>
              cases isDev2 with
              | true => exact Or.inr rfl
              | false => exact absurd ⟨rfl, rfl⟩ hfirst
          rw [pageHandler_failure_show cfg isRetry2 isDev2 loaded2 sd henv
            hl h2]
          right
          simp

/-- A section used to exercise the failure and retry branches. -/
def c10Section : SectionDefinition :=
  { name := "reader", module := "reader", paths := ["/read"] }

/-- C10 witness: on a concrete failed first-attempt load in production,
the loading flag survives the retry branch. -/
theorem retry_keeps_loading_flag_witness :
    envAllows "production" c10Section = true ∧
    "reader" ∉ ([] : List String) ∧
    ((pageHandler "production" false false [] c10Section .failure).1.count
        (Effect.dispatch (Action.sectionSet false)) = 0) ∧
    loadingAfter false
      (pageHandler "production" false false [] c10Section .failure).1
      = true :=
  ⟨rfl, by simp,
    (retry_keeps_loading_flag "production" false [] c10Section rfl
      (by simp) rfl).1,
    (retry_keeps_loading_flag "production" false [] c10Section rfl
      (by simp) rfl).2.1⟩

/-- The number of `LoadingError.retry` calls in an effect trace. -/
def countRetries (l : List Effect) : Nat :=
  l.countP (fun e =>
    match e with
    | .retry _ => true
    | _ => false)

/-- A single handler invocation calls `LoadingError.retry` exactly when
the failed load was a first attempt outside development for an allowed,
not-yet-loaded section — and then exactly once. -/
theorem countRetries_pageHandler (cfg : String) (isRetry isDev : Bool)
    (loaded : List String) (sd : SectionDefinition) (r : LoadResult) :
    countRetries (pageHandler cfg isRetry isDev loaded sd r).1 =
      if envAllows cfg sd = true ∧ sd.module ∉ loaded ∧ isRetry = false
          ∧ isDev = false ∧ r = .failure then 1 else 0 := by
  by_cases henv : envAllows cfg sd = true
  · by_cases hl : sd.module ∈ loaded
    · rw [pageHandler_loaded cfg isRetry isDev loaded sd r henv hl]
      simp [activateSection, countRetries, hl]
    · cases r with
      | success mods =>
        rw [pageHandler_success cfg isRetry isDev loaded sd mods henv hl]
        simp [countRetries, startEffects, List.countP_map]
      | failure =>
        cases isRetry with
        | false =>
          cases isDev with
          | false =>
            rw [pageHandler_failure_retry cfg loaded sd henv hl]
            simp [countRetries, henv, hl]
          | true =>
            rw [pageHandler_failure_show cfg false true loaded sd henv hl
              (Or.inr rfl)]
            simp [countRetries]
        | true =>
          rw [pageHandler_failure_show cfg true isDev loaded sd henv hl
            (Or.inl rfl)]
          simp [countRetries]
  · have henv' : envAllows cfg sd = false := by simpa using henv
    rw [pageHandler_env_skip cfg isRetry isDev loaded sd r henv']
    simp [countRetries, henv']

/-- Once `LoadingError.isRetry()` reports true, no attempt ever calls
`LoadingError.retry` again. -/
theorem countRetries_runAttempts_retried (cfg : String) (isDev : Bool)
    (loaded : List String) (sd : SectionDefinition)
    (results : List LoadResult) :
    countRetries (runAttempts cfg isDev loaded sd true results) = 0 := by
  cases results with
  | nil => rfl
  | cons r rest =>
    cases r with
    | success mods =>
      show countRetries (pageHandler cfg true isDev loaded sd
        (.success mods)).1 = 0
      rw [countRetries_pageHandler]
      simp
    | failure =>
      have : runAttempts cfg isDev loaded sd true (.failure :: rest) =
          (pageHandler cfg true isDev loaded sd .failure).1 := by
        simp [runAttempts]
      rw [this, countRetries_pageHandler]
      simp

/-- C2: a failed load that is a first attempt outside development calls
`LoadingError.retry` exactly once and shows no error; a failed load that
is already a retry, or in development, performs no retry, clears the
loading flag, and shows the loading error; and across the whole
retry-driven process no outcome sequence ever produces more than one
retry. -/
theorem load_failure_retry_policy (cfg : String) (isDev : Bool)
    (loaded : List String) (sd : SectionDefinition)
    (henv : envAllows cfg sd = true) (hnl : sd.module ∉ loaded) :
    (isDev = false →
      countRetries (pageHandler cfg false isDev loaded sd .failure).1 = 1 ∧
      Effect.retry sd.name
          ∈ (pageHandler cfg false isDev loaded sd .failure).1 ∧
      (pageHandler cfg false isDev loaded sd .failure).1.count
          (Effect.showError sd.name) = 0) ∧
    (∀ isRetry : Bool, (isRetry = true ∨ isDev = true) →
      countRetries (pageHandler cfg isRetry isDev loaded sd .failure).1
        = 0 ∧
      loadingAfter true
        (pageHandler cfg isRetry isDev loaded sd .failure).1 = false ∧
      Effect.showError sd.name
          ∈ (pageHandler cfg isRetry isDev loaded sd .failure).1) ∧
    (∀ (first : Bool) (results : List LoadResult),
      countRetries (runAttempts cfg isDev loaded sd first results) ≤ 1) := by
  refine ⟨?_, ?_, ?_⟩
  · intro hdev
    subst hdev
    have htr := pageHandler_failure_retry cfg loaded sd henv hnl
    rw [htr]
    refine ⟨by simp [countRetries], by simp, by simp [List.count_cons]⟩
  · intro isRetry h
    have htr := pageHandler_failure_show cfg isRetry isDev loaded sd henv
      hnl h
    rw [htr]
    exact ⟨by simp [countRetries], rfl, by simp⟩
  · intro first results
    cases first with
    | true => rw [countRetries_runAttempts_retried]; omega
    | false =>
      cases results with
      | nil => simp [runAttempts, countRetries]
      | cons r rest =>
        cases r with
        | success mods =>
          show countRetries (pageHandler cfg false isDev loaded sd
            (.success mods)).1 ≤ 1
          rw [countRetries_pageHandler]
          split <;> omega
        | failure =>
          have heq : runAttempts cfg isDev loaded sd false
              (.failure :: rest) =
              if envAllows cfg sd = true ∧ sd.module ∉ loaded
                  ∧ false = false ∧ isDev = false then
                (pageHandler cfg false isDev loaded sd .failure).1
                  ++ runAttempts cfg isDev loaded sd true rest
              else
                (pageHandler cfg false isDev loaded sd .failure).1 := rfl
          rw [heq]
          have h1 := countRetries_pageHandler cfg false isDev loaded sd
            .failure
          split
          · unfold countRetries
            rw [List.countP_append]
            have h2 := countRetries_runAttempts_retried cfg isDev loaded
              sd rest
            unfold countRetries at h1 h2
            rw [h1, h2]
            split <;> omega
          · rw [h1]
            split <;> omega

/-- A section used to exercise the retry-once policy. -/
def c2Section : SectionDefinition :=
  { name := "stats", module := "stats", paths := ["/stats"] }

/-- C2 witness: in production, a concrete failed first attempt retries
exactly once, and two consecutive failures still produce only one
retry. -/
theorem load_failure_retry_policy_witness :
    envAllows "production" c2Section = true ∧
    "stats" ∉ ([] : List String) ∧
    countRetries (pageHandler "production" false false [] c2Section
      .failure).1 = 1 ∧
    countRetries (runAttempts "production" false [] c2Section false
      [LoadResult.failure, LoadResult.failure]) ≤ 1 :=
  ⟨rfl, by simp,
    ((load_failure_retry_policy "production" false [] c2Section rfl
      (by simp)).1 rfl).1,
    (load_failure_retry_policy "production" false [] c2Section rfl
      (by simp)).2.2 false [LoadResult.failure, LoadResult.failure]⟩

/-- Case split on a pair of booleans not both false. -/
theorem bool_pair_cases (a b : Bool) (h : ¬(a = false ∧ b = false)) :
    a = true ∨ b = true := by
  cases a with
  | true => exact Or.inl rfl
  | false =>
    cases b with
    | true => exact Or.inr rfl
    | false => exact absurd ⟨rfl, rfl⟩ h

/-- Module-initialization effects are distinguished by their module. -/
theorem initModule_injective :
    Function.Injective (fun m => Effect.initModule m Router.client) := by
  intro a b h
  simpa using h

/-- Unfolding of the sequential runner on one route match. -/
theorem runMatches_cons (cfg : String) (isRetry isDev : Bool)
    (loaded : List String) (sd : SectionDefinition) (r : LoadResult)
    (rest : List (SectionDefinition × LoadResult)) :
    runMatches cfg isRetry isDev loaded ((sd, r) :: rest) =
      ((pageHandler cfg isRetry isDev loaded sd r).1
        ++ (runMatches cfg isRetry isDev
              (pageHandler cfg isRetry isDev loaded sd r).2 rest).1,
       (runMatches cfg isRetry isDev
         (pageHandler cfg isRetry isDev loaded sd r).2 rest).2) := rfl

/-- No handler invocation ever removes an entry from the registry. -/
theorem pageHandler_registry_mono (cfg : String) (isRetry isDev : Bool)
    (loaded : List String) (sd : SectionDefinition) (r : LoadResult)
    (m : String) (hm : m ∈ loaded) :
    m ∈ (pageHandler cfg isRetry isDev loaded sd r).2 := by
  by_cases henv : envAllows cfg sd = true
  · by_cases hl : sd.module ∈ loaded
    · rw [pageHandler_loaded cfg isRetry isDev loaded sd r henv hl]
      exact hm
    · cases r with
      | success mods =>
        rw [pageHandler_success cfg isRetry isDev loaded sd mods henv hl]
        exact List.mem_cons_of_mem _ hm
      | failure =>
        by_cases hfirst : isRetry = false ∧ isDev = false
        · obtain ⟨h1, h2⟩ := hfirst
          subst h1
          subst h2
          rw [pageHandler_failure_retry cfg loaded sd henv hl]
          exact hm
        · rw [pageHandler_failure_show cfg isRetry isDev loaded sd henv hl
            (bool_pair_cases _ _ hfirst)]
          exact hm
  · have henv' : envAllows cfg sd = false := by simpa using henv
    rw [pageHandler_env_skip cfg isRetry isDev loaded sd r henv']
    exact hm

/-- Registry entries survive any sequence of route matches. -/
theorem runMatches_registry_mono (cfg : String) (isRetry isDev : Bool) :
    ∀ (ms : List (SectionDefinition × LoadResult))
      (loaded : List String) (m : String), m ∈ loaded →
      m ∈ (runMatches cfg isRetry isDev loaded ms).2 := by
  intro ms
  induction ms with
  | nil => intro loaded m hm; exact hm
  | cons p ps ih =>
    intro loaded m hm
    obtain ⟨sd, r⟩ := p
    exact ih _ _ (pageHandler_registry_mono cfg isRetry isDev loaded sd r m hm)

/-- Once a section's module is in the registry, further matches for that
section only activate: no module initialization, no new preload, and an
unchanged registry. -/
theorem runMatches_after_loaded (cfg : String) (isRetry isDev : Bool)
    (sd : SectionDefinition) (henv : envAllows cfg sd = true) :
    ∀ (rest : List (SectionDefinition × LoadResult))
      (loaded : List String),
      (∀ p ∈ rest, p.1 = sd) → sd.module ∈ loaded →
      (∀ (m : String) (rt : Router),
        (runMatches cfg isRetry isDev loaded rest).1.count
          (Effect.initModule m rt) = 0) ∧
      ((runMatches cfg isRetry isDev loaded rest).1.count
          (Effect.startPreload sd.name) = 0) ∧
      (runMatches cfg isRetry isDev loaded rest).2 = loaded := by
  intro rest
  induction rest with
  | nil => intro loaded _ _; exact ⟨fun m rt => rfl, rfl, rfl⟩
  | cons p ps ih =>
    intro loaded hall hmem
    obtain ⟨psd, pr⟩ := p
    have hpsd : psd = sd := hall _ (List.mem_cons_self _ _)
    subst hpsd
    have hpage := pageHandler_loaded cfg isRetry isDev loaded psd pr henv hmem
    have hrest := ih loaded (fun q hq => hall q (List.mem_cons_of_mem _ hq))
      hmem
    refine ⟨?_, ?_, ?_⟩
    · intro m rt
      simp [runMatches_cons, hpage, List.count_append, activateSection,
        List.count_cons, hrest.1 m rt]
    · simp [runMatches_cons, hpage, List.count_append, activateSection,
        List.count_cons, hrest.2.1]
    · simp [runMatches_cons, hpage, hrest.2.2]

/-- C3: across a sequence of matches for the same section, a successful
first load runs each required module's initialization entry point
exactly once (with the shared client-router handle) and marks the module
loaded; every later match activates without a new preload or
re-initialization; and registry entries, once set, are never cleared. -/
theorem section_init_once (cfg : String) (isRetry isDev : Bool)
    (loaded : List String) (sd : SectionDefinition) (mods : List String)
    (rest : List (SectionDefinition × LoadResult))
    (henv : envAllows cfg sd = true) (hnl : sd.module ∉ loaded)
    (hrest : ∀ p ∈ rest, p.1 = sd) :
    (∀ m : String,
      (runMatches cfg isRetry isDev loaded
        ((sd, .success mods) :: rest)).1.count
          (Effect.initModule m .client) = mods.count m) ∧
    sd.module ∈ (runMatches cfg isRetry isDev loaded
        ((sd, .success mods) :: rest)).2 ∧
    ((runMatches cfg isRetry isDev loaded
        ((sd, .success mods) :: rest)).1.count
          (Effect.startPreload sd.name) = 1) ∧
    (∀ (ms : List (SectionDefinition × LoadResult)) (m : String),
      m ∈ loaded →
      m ∈ (runMatches cfg isRetry isDev loaded ms).2) := by
  have hpage := pageHandler_success cfg isRetry isDev loaded sd mods henv hnl
  have hmem : sd.module
      ∈ (pageHandler cfg isRetry isDev loaded sd (.success mods)).2 := by
    rw [hpage]
    exact List.mem_cons_self _ _
  have hrest' := runMatches_after_loaded cfg isRetry isDev sd henv rest
    (pageHandler cfg isRetry isDev loaded sd (.success mods)).2 hrest hmem
  refine ⟨?_, ?_, ?_, ?_⟩
  · intro m
    have hc := List.count_map_of_injective mods
      (fun m0 => Effect.initModule m0 Router.client) initModule_injective m
    simp only [runMatches_cons]
    rw [List.count_append, hrest'.1 m .client, hpage]
    simp [startEffects, List.count_append, List.count_cons]
    exact hc
  · exact runMatches_registry_mono cfg isRetry isDev rest _ sd.module hmem
  · simp only [runMatches_cons]
    rw [List.count_append, hrest'.2.1, hpage]
    simp [startEffects, List.count_append, List.count_cons]
    rw [List.count_eq_zero]
    simp
  · intro ms m hm
    exact runMatches_registry_mono cfg isRetry isDev ms loaded m hm

/-- A section used to exercise first-load initialization and repeat
matches. -/
def c3Section : SectionDefinition :=
  { name := "me", module := "me", paths := ["/me"] }

/-- C3 witness: two consecutive matches of the same section initialize
its module once and leave it registered. -/
theorem section_init_once_witness :
    envAllows "production" c3Section = true ∧
    "me" ∉ ([] : List String) ∧
    (runMatches "production" false false []
        [(c3Section, .success ["me/index"]),
         (c3Section, .success ["me/index"])]).1.count
        (Effect.initModule "me/index" .client) = 1 ∧
    "me" ∈ (runMatches "production" false false []
        [(c3Section, .success ["me/index"]),
         (c3Section, .success ["me/index"])]).2 := by
  have hrest : ∀ p ∈ [((c3Section : SectionDefinition),
      LoadResult.success ["me/index"])], p.1 = c3Section := by
    intro p hp
    rw [List.mem_singleton] at hp
    subst hp
    rfl
  have h := section_init_once "production" false false [] c3Section
    ["me/index"] [(c3Section, .success ["me/index"])] rfl (by simp) hrest
  refine ⟨rfl, by simp, ?_, h.2.1⟩
  rw [h.1 "me/index"]
  rfl

/-- The pre-settlement effects contain no analytics dispatch. -/
theorem start_no_bump (sd : SectionDefinition) :
    ∀ e ∈ startEffects sd, isBumpStat e = false := by
  intro e he
  simp [startEffects] at he
  rcases he with rfl | rfl | rfl <;> rfl

/-- The settlement effects contain no analytics dispatch. -/
theorem settle_no_bump (isRetry isDev : Bool) (loaded : List String)
    (sd : SectionDefinition) (r : LoadResult) :
    ∀ e ∈ (settleEffects isRetry isDev loaded sd r).1,
      isBumpStat e = false := by
  intro e he
  cases r with
  | success mods =>
    by_cases hl : sd.module ∈ loaded
    · simp [settleEffects, hl, activateSection] at he
      rcases he with rfl | rfl | rfl | rfl | rfl <;> rfl
    · simp [settleEffects, hl, activateSection] at he
      rcases he with ⟨m, hm, rfl⟩ | rfl | rfl | rfl | rfl | rfl | rfl <;> rfl
  | failure =>
    cases hb : (!isRetry && !isDev) with
    | false =>
      simp [settleEffects, hb] at he
      rcases he with rfl | rfl | rfl <;> rfl
    | true =>
      simp [settleEffects, hb] at he
      rcases he with rfl | rfl <;> rfl

/-- Every settlement branch ends by clearing the analytics timer. -/
theorem clear_mem_settle (isRetry isDev : Bool) (loaded : List String)
    (sd : SectionDefinition) (r : LoadResult) :
    Effect.clearLoadTimeout ∈ (settleEffects isRetry isDev loaded sd r).1 := by
  cases r with
  | success mods =>
    by_cases hl : sd.module ∈ loaded <;>
      simp [settleEffects, hl, activateSection]
  | failure =>
    cases hb : (!isRetry && !isDev) <;> simp [settleEffects, hb]

/-- A timestamped copy of a bump-free trace cannot contain the analytics
event. -/
theorem bump_not_mem_shifted (d t : Nat) (name : String) (l : List Effect)
    (h : ∀ e ∈ l, isBumpStat e = false) :
    ((t, Effect.dispatch (Action.bumpStat "calypso_chunk_waiting" name)))
      ∉ l.map (fun e => ((d : Nat), e)) := by
  intro hmem
  rcases List.mem_map.mp hmem with ⟨e, he, heq⟩
  have h2 := h e he
  have h3 := congrArg Prod.snd heq
  simp at h3
  rw [h3] at h2
  simp [isBumpStat] at h2

/-- Filtering out analytics events leaves a bump-free timestamped trace
unchanged. -/
theorem filter_no_bump (d : Nat) (l : List Effect)
    (h : ∀ e ∈ l, isBumpStat e = false) :
    (l.map (fun e => ((d : Nat), e))).filter (fun te => !isBumpStat te.2)
      = l.map (fun e => (d, e)) := by
  rw [List.filter_map]
  congr 1
  rw [List.filter_eq_self]
  intro e he
  simp [Function.comp, h e he]

/-- C7: if the load has not settled within the 400 time-unit delay,
exactly one slow-chunk analytics event for the section is emitted (and
none otherwise); the non-analytics effects of the attempt are the same
for every settle time, so the timer never affects the load; and the
timer is cleared when the load settles, on success and on failure
alike. -/
theorem slow_chunk_timer (isRetry isDev : Bool) (loaded : List String)
    (sd : SectionDefinition) (result : LoadResult) (d : Nat) :
    ((attemptTimeline isRetry isDev loaded sd result d).count
        (((400 : Nat), Effect.dispatch
          (Action.bumpStat "calypso_chunk_waiting" sd.name)))
      = if 400 < d then 1 else 0) ∧
    (((attemptTimeline isRetry isDev loaded sd result d).filter
        (fun te => !isBumpStat te.2)).map Prod.snd
      = startEffects sd ++ (settleEffects isRetry isDev loaded sd result).1) ∧
    ((d, Effect.clearLoadTimeout)
      ∈ attemptTimeline isRetry isDev loaded sd result d) := by
  refine ⟨?_, ?_, ?_⟩
  · unfold attemptTimeline
    rw [List.count_append, List.count_append]
    rw [List.count_eq_zero_of_not_mem
      (bump_not_mem_shifted 0 400 sd.name _ (start_no_bump sd))]
    rw [List.count_eq_zero_of_not_mem
      (bump_not_mem_shifted d 400 sd.name _
        (settle_no_bump isRetry isDev loaded sd result))]
    unfold timerFires
    by_cases hd : 400 < d
    · simp [hd]
    · simp [hd]
  · unfold attemptTimeline
    rw [List.filter_append, List.filter_append]
    rw [filter_no_bump 0 _ (start_no_bump sd),
      filter_no_bump d _ (settle_no_bump isRetry isDev loaded sd result)]
    have hmid : ((if timerFires 400 d then
        [((400 : Nat), Effect.dispatch
          (Action.bumpStat "calypso_chunk_waiting" sd.name))]
        else []).filter (fun te => !isBumpStat te.2)) = [] := by
      cases timerFires 400 d <;> simp [isBumpStat]
    rw [hmid]
    simp [List.map_map, Function.comp_def]
  · simp only [attemptTimeline, List.mem_append, List.mem_map]
    exact Or.inr ⟨Effect.clearLoadTimeout,
      clear_mem_settle isRetry isDev loaded sd result, rfl⟩

/-- C9: `getPurchases` maps each raw record through the assembler, so
its output is exactly the assembler image of the current raw data and
its length equals the number of raw records; being a plain recomputation
of the current state, it carries no cache or memoization. -/
theorem getPurchases_maps_all_records (s : GlobalState) :
    getPurchases s = s.purchases.data.map createPurchaseObject ∧
    (getPurchases s).length = s.purchases.data.length :=
  ⟨rfl, by simp [getPurchases, createPurchasesArray]⟩
